import Mathlib

/-!
# The news site server (`src/main.go`)

A shallow embedding of the request-to-render pipeline of `main.go`:
the two list operations over the store, the template renderer, the four
page handlers and the route table built in `main`.

Conventions of the embedding.

* A Go `error` is identified with its message (`err.Error()`).
* A Go slice keeps the distinction between the nil slice and an allocated one.
* The external collaborators (`database/sql`, `html/template`, `net/http`,
  `log`) appear through what the program observes of them: the outcome of
  `db.Query`, of `rows.Scan`, of `rows.Err`, of `template.ParseFiles` and of
  `tmpl.Execute`, and the calls made on the `http.ResponseWriter`.
* Functions that have effects take the world and return it; every call of a
  function of the program and every `log.Println` line is appended to the
  world's trace.
-/

namespace NewsSite

/-! ## Data model -/

/-- An error value, identified with its message `err.Error()`. -/
abbrev Error := String

/-- A Go slice value: the nil slice (zero value of an unassigned slice
variable or struct field) or an allocated slice holding its elements. -/
inductive Slice (α : Type) where
  | nil : Slice α
  | mk (elems : List α) : Slice α
  deriving DecidableEq, Repr

namespace Slice

/-- Elements of a slice in order; the nil slice has none. -/
def toList {α : Type} : Slice α → List α
  | nil => []
  | mk xs => xs

/-- Go `len(s)`. -/
def len {α : Type} (s : Slice α) : Nat := s.toList.length

/-- Go `s == nil`. -/
def isNil {α : Type} : Slice α → Bool
  | nil => true
  | mk _ => false

/-- Go `append(s, x)`: the result is always an allocated slice. -/
def append {α : Type} (s : Slice α) (x : α) : Slice α := mk (s.toList ++ [x])

end Slice

/-- Go `type Article struct`. -/
structure Article where
  ID : Int
  Title : String
  Category : String
  ImageURL : String
  deriving DecidableEq, Repr

/-- Go `type VideoLink struct`. -/
structure VideoLink where
  ID : Int
  URL : String
  Img : String
  deriving DecidableEq, Repr

/-- Go `type ViewData struct`. -/
structure ViewData where
  Articles : Slice Article
  VideoLinks : Slice VideoLink
  deriving DecidableEq, Repr

/-! ## The store as seen through `database/sql` -/

/-- The columns `id, title, category, image_url` of one row of `articles`,
in the order of the SELECT list. -/
structure ArticleRow where
  id : Int
  title : String
  category : String
  image_url : String
  deriving DecidableEq, Repr

/-- The columns `id, url, img` of one row of `video_links`, in the order of
the SELECT list. -/
structure VideoLinkRow where
  id : Int
  url : String
  img : String
  deriving DecidableEq, Repr

/-- A result set `*sql.Rows`. `scans` lists, in iteration order, the rows
for which `rows.Next()` returns true, each with the outcome of `rows.Scan`
on it (the decoded columns, or the error Scan returns). `err` is what
`rows.Err()` returns once `rows.Next()` has returned false. -/
structure Rows (ρ : Type) where
  scans : List (Except Error ρ)
  err : Option Error

/-- The store state behind the global `db`: the outcome of `db.Query` for
each of the two fixed statements of the program (`.error` when the query is
rejected or the connection is unavailable). -/
structure DB where
  articles : Except Error (Rows ArticleRow)
  video_links : Except Error (Rows VideoLinkRow)

/-! ## Templates, response writer, requests -/

/-- A parsed template: `Execute data` gives the output `tmpl.Execute(w, data)`
writes to `w` (all of the page, or the part written before a failure) and the
error it returns. -/
structure Template where
  Execute : ViewData → String × Option Error

/-- A call made on the `http.ResponseWriter`. -/
inductive Sent where
  /-- The reply of `http.Error(w, error, code)`: the status line `code` when no
  header was sent before, and the message `error` as plain-text body (the line
  terminator `net/http` adds after the message is not represented). -/
  | Error (error : String) (code : Nat) : Sent
  /-- Page output written by `tmpl.Execute(w, data)`. -/
  | Write (output : String) : Sent
  deriving DecidableEq, Repr

/-- An `http.ResponseWriter`: the calls made on it so far, oldest first. The
server hands every request a fresh one. -/
abbrev ResponseWriter := List Sent

/-- Go `http.StatusInternalServerError`. -/
def StatusInternalServerError : Nat := 500

/-- Go `http.StatusNotFound`. -/
def StatusNotFound : Nat := 404

/-- Go `http.StatusOK`. -/
def StatusOK : Nat := 200

/-- Go `http.Error(w, error, code)`: replies with the message and the code. -/
def http_Error (w : ResponseWriter) (error : String) (code : Nat) : ResponseWriter :=
  w ++ [Sent.Error error code]

/-- The status line the client receives: the first call on the writer commits
it (`http.Error` its code, a write of page output 200); a handler that returns
without touching the writer is answered 200 by `net/http`. -/
def status : ResponseWriter → Nat
  | [] => StatusOK
  | Sent.Error _ code :: _ => code
  | Sent.Write _ :: _ => StatusOK

/-- Page output written to the response (by template execution). -/
def pageOutput : ResponseWriter → String
  | [] => ""
  | Sent.Error _ _ :: rest => pageOutput rest
  | Sent.Write out :: rest => out ++ pageOutput rest

/-- The part of an `*http.Request` a handler could read. -/
structure Request where
  Method : String
  Path : String
  RawQuery : String
  Header : List (String × String)
  Cookies : List (String × String)
  Body : String
  deriving DecidableEq, Repr

/-! ## World and trace -/

/-- One entry of the trace. -/
inductive Event where
  /-- A line written by `log.Println` (operands separated by a space). -/
  | Println (line : String) : Event
  /-- A call of `db.Query` with the statement text. -/
  | Query (query : String) : Event
  /-- A call of `getArticlesFromDB`. -/
  | getArticlesFromDB : Event
  /-- A call of `getVideoLinksFromDB`. -/
  | getVideoLinksFromDB : Event
  /-- A call of `renderHTML` with its arguments. -/
  | renderHTML (filename : String) (templatesDir : String) (data : ViewData) : Event
  /-- A call of `tmpl.Execute` for the template parsed from `path`. -/
  | Execute (path : String) (data : ViewData) : Event
  deriving DecidableEq, Repr

/-- Everything the handlers depend on: the globals `db` and `templatesDir`,
the template files as `template.ParseFiles` sees them, and the trace. -/
structure World where
  db : DB
  templatesDir : String
  ParseFiles : String → Except Error Template
  trace : List Event

/-- Append an entry to the trace. -/
def World.emit (W : World) (ev : Event) : World :=
  { W with trace := W.trace ++ [ev] }

/-- Go `log.Println(msg, err)`. -/
def log_Println (W : World) (msg : String) (err : Error) : World :=
  W.emit (Event.Println (msg ++ " " ++ err))

/-- Go `filepath.Join(dir, name)` for a clean directory path and a clean
relative path, which is how the program uses it: the two joined by the
separator. -/
def filepath_Join (dir name : String) : String := dir ++ "/" ++ name

/-! ## Storage access -/

/-- The loop `for rows.Next() { ... }` of `getArticlesFromDB`, started with
the slice `articles`: `.ok` of the slice built when `rows.Next()` returns
false, `.error e` when the body leaves the function because `rows.Scan`
returned `e`. -/
def getArticlesFromDB_loop :
    List (Except Error ArticleRow) → Slice Article → Except Error (Slice Article)
  | [], articles => Except.ok articles
  | Except.error e :: _, _ => Except.error e
  | Except.ok row :: rest, articles =>
    let article : Article :=
      { ID := row.id, Title := row.title, Category := row.category, ImageURL := row.image_url }
    getArticlesFromDB_loop rest (articles.append article)

/-- Go `func getArticlesFromDB() ([]Article, error)`. -/
def getArticlesFromDB (W : World) : Slice Article × Option Error × World :=
  let W := (W.emit Event.getArticlesFromDB).emit
    (Event.Query "SELECT id, title, category, image_url FROM articles")
  match W.db.articles with
  | Except.error err => (Slice.nil, some err, log_Println W "Error querying articles:" err)
  | Except.ok rows =>
    match getArticlesFromDB_loop rows.scans Slice.nil with
    | Except.error err => (Slice.nil, some err, log_Println W "Error scanning article:" err)
    | Except.ok articles =>
      match rows.err with
      | some err => (Slice.nil, some err, log_Println W "Error iterating over rows:" err)
      | none => (articles, none, W)

/-- The loop `for rows.Next() { ... }` of `getVideoLinksFromDB`, started with
the slice `videoLinks`: `.ok` of the slice built when `rows.Next()` returns
false, `.error e` when the body leaves the function because `rows.Scan`
returned `e`. -/
def getVideoLinksFromDB_loop :
    List (Except Error VideoLinkRow) → Slice VideoLink → Except Error (Slice VideoLink)
  | [], videoLinks => Except.ok videoLinks
  | Except.error e :: _, _ => Except.error e
  | Except.ok row :: rest, videoLinks =>
    let videoLink : VideoLink := { ID := row.id, URL := row.url, Img := row.img }
    getVideoLinksFromDB_loop rest (videoLinks.append videoLink)

/-- Go `func getVideoLinksFromDB() ([]VideoLink, error)`. -/
def getVideoLinksFromDB (W : World) : Slice VideoLink × Option Error × World :=
  let W := (W.emit Event.getVideoLinksFromDB).emit
    (Event.Query "SELECT id, url, img FROM video_links")
  match W.db.video_links with
  | Except.error err => (Slice.nil, some err, log_Println W "Error querying video links:" err)
  | Except.ok rows =>
    match getVideoLinksFromDB_loop rows.scans Slice.nil with
    | Except.error err => (Slice.nil, some err, log_Println W "Error scanning video link:" err)
    | Except.ok videoLinks =>
      match rows.err with
      | some err => (Slice.nil, some err, log_Println W "Error iterating over rows:" err)
      | none => (videoLinks, none, W)

/-! ## Template renderer -/

/-- Go `func renderHTML(w, filename, templatesDir, data)`. The value returned
by `tmpl.Execute` is discarded, as in the source. -/
def renderHTML (W : World) (w : ResponseWriter) (filename : String) (templatesDir : String)
    (data : ViewData) : ResponseWriter × World :=
  let W := W.emit (Event.renderHTML filename templatesDir data)
  let absPath := filepath_Join templatesDir filename
  match W.ParseFiles absPath with
  | Except.error err =>
    let W := log_Println W "Error parsing template:" err
    (http_Error w err StatusInternalServerError, W)
  | Except.ok tmpl =>
    let W := W.emit (Event.Execute absPath data)
    (w ++ [Sent.Write (tmpl.Execute data).1], W)

/-! ## Page handlers -/

/-- Go `func homeHandler(w, r)`. -/
def homeHandler (W : World) (w : ResponseWriter) (_r : Request) : ResponseWriter × World :=
  match getArticlesFromDB W with
  | (_, some err, W) =>
    let W := log_Println W "Error getting articles from DB:" err
    (http_Error w err StatusInternalServerError, W)
  | (articles, none, W) =>
    match getVideoLinksFromDB W with
    | (_, some err, W) =>
      let W := log_Println W "Error getting video links from DB:" err
      (http_Error w err StatusInternalServerError, W)
    | (videoLinks, none, W) =>
      let data : ViewData := { Articles := articles, VideoLinks := videoLinks }
      renderHTML W w "index.html" W.templatesDir data

/-- Go `func aboutHandler(w, r)`. -/
def aboutHandler (W : World) (w : ResponseWriter) (_r : Request) : ResponseWriter × World :=
  match getArticlesFromDB W with
  | (_, some err, W) =>
    let W := log_Println W "Error getting articles from DB:" err
    (http_Error w err StatusInternalServerError, W)
  | (articles, none, W) =>
    match getVideoLinksFromDB W with
    | (_, some err, W) =>
      let W := log_Println W "Error getting video links from DB:" err
      (http_Error w err StatusInternalServerError, W)
    | (videoLinks, none, W) =>
      let data : ViewData := { Articles := articles, VideoLinks := videoLinks }
      renderHTML W w "article.html" W.templatesDir data

/-- Go `func studentHandler(w, r)`. The field `VideoLinks` of the composite
literal is left out, so it holds the zero value, the nil slice. -/
def studentHandler (W : World) (w : ResponseWriter) (_r : Request) : ResponseWriter × World :=
  match getArticlesFromDB W with
  | (_, some err, W) =>
    let W := log_Println W "Error getting articles from DB:" err
    (http_Error w err StatusInternalServerError, W)
  | (articles, none, W) =>
    let data : ViewData := { Articles := articles, VideoLinks := Slice.nil }
    renderHTML W w "first.html" W.templatesDir data

/-- Go `func mapHandler(w, r)`. -/
def mapHandler (W : World) (w : ResponseWriter) (_r : Request) : ResponseWriter × World :=
  match getArticlesFromDB W with
  | (_, some err, W) =>
    let W := log_Println W "Error getting articles from DB:" err
    (http_Error w err StatusInternalServerError, W)
  | (articles, none, W) =>
    let data : ViewData := { Articles := articles, VideoLinks := Slice.nil }
    renderHTML W w "map.html" W.templatesDir data

/-! ## Route dispatcher -/

/-- The four page handlers of the program, as values `http.HandlerFunc(f)`. -/
inductive PageHandler where
  | homeHandler : PageHandler
  | aboutHandler : PageHandler
  | studentHandler : PageHandler
  | mapHandler : PageHandler
  deriving DecidableEq, Repr

/-- Go `http.HandlerFunc(f).ServeHTTP(w, r)`, which calls `f(w, r)`. -/
def PageHandler.ServeHTTP :
    PageHandler → World → ResponseWriter → Request → ResponseWriter × World
  | PageHandler.homeHandler => NewsSite.homeHandler
  | PageHandler.aboutHandler => NewsSite.aboutHandler
  | PageHandler.studentHandler => NewsSite.studentHandler
  | PageHandler.mapHandler => NewsSite.mapHandler

/-- A handler registered on the mux in `main`: a page handler, or the static
file server `http.StripPrefix(strip, http.FileServer(http.Dir(root)))`. -/
inductive Handler where
  | page (f : PageHandler) : Handler
  | FileServer (strip : String) (root : String) : Handler
  deriving DecidableEq, Repr

/-- Entry of `http.ServeMux`. -/
structure muxEntry where
  h : Handler
  pattern : String
  deriving DecidableEq, Repr

/-- Model of `http.ServeMux`: `m` is the table of registered patterns, `es`
the entries whose pattern ends in a slash, longest pattern first. -/
structure ServeMux where
  m : List muxEntry
  es : List muxEntry
  deriving DecidableEq, Repr

/-- Go `http.NewServeMux()`. -/
def NewServeMux : ServeMux := { m := [], es := [] }

/-- Insert an entry before the first one with a shorter pattern, keeping `es`
ordered from longest to shortest pattern. -/
def appendSorted : List muxEntry → muxEntry → List muxEntry
  | [], e => [e]
  | x :: xs, e =>
    if x.pattern.length < e.pattern.length then e :: x :: xs else x :: appendSorted xs e

/-- Go `mux.Handle(pattern, handler)`. -/
def ServeMux.Handle (mux : ServeMux) (pattern : String) (handler : Handler) : ServeMux :=
  let e : muxEntry := { h := handler, pattern := pattern }
  { m := mux.m ++ [e],
    es := if pattern.data.getLast? = some '/' then appendSorted mux.es e else mux.es }

/-- Go `strings.HasPrefix(s, pre)`. -/
def strings_HasPrefix (s pre : String) : Bool := pre.data.isPrefixOf s.data

/-- Pattern matching of `http.ServeMux` on a request path: an exact match of
a registered pattern first, otherwise the longest registered pattern ending in
a slash that the path starts with; `none` stands for `http.NotFoundHandler()`.
The redirects that precede the match are in `ServeMux.Handler`. -/
def ServeMux.matchPath (mux : ServeMux) (path : String) : Option Handler :=
  match mux.m.find? (fun e => e.pattern = path) with
  | some e => some e.h
  | none =>
    match mux.es.find? (fun e => strings_HasPrefix path e.pattern) with
    | some e => some e.h
    | none => none

/-- Whether a request path is in canonical form, that is, left unchanged by
the path cleaning of `net/http`: it starts with a slash, has no empty element
other than a final one (a trailing slash is kept) and no element `.` or `..`. -/
def canonicalPath (path : String) : Bool :=
  match path.data.splitOn '/' with
  | [] => false
  | first :: rest =>
    first.isEmpty && !rest.isEmpty && rest.dropLast.all (fun s => !s.isEmpty) &&
      rest.all (fun s => s != ['.'] && s != ['.', '.'])

/-- Whether the mux answers a canonical path with the redirect to the path
followed by a slash: the path is not registered itself, does not end in a
slash, and the path followed by a slash is registered. -/
def ServeMux.shouldRedirect (mux : ServeMux) (path : String) : Bool :=
  !(mux.m.any (fun e => e.pattern = path)) &&
    (mux.m.any (fun e => e.pattern = path ++ "/") && path.data.getLast? != some '/')

/-- What the mux selects for a request. -/
inductive Selected where
  /-- A registered handler. -/
  | handler (h : Handler) : Selected
  /-- The handler `http.RedirectHandler(url, 301)`. -/
  | redirect : Selected
  /-- The handler `http.NotFoundHandler()`. -/
  | notFound : Selected
  deriving DecidableEq, Repr

/-- Model of `mux.Handler(r)` for the path of a request whose method is not
CONNECT: a path that is not canonical, or names a registered directory without
its final slash, is answered with a redirect; otherwise the pattern match
decides, and the not-found handler is selected when no pattern matches. -/
def ServeMux.Handler (mux : ServeMux) (path : String) : Selected :=
  if canonicalPath path = false then Selected.redirect
  else if mux.shouldRedirect path then Selected.redirect
  else
    match mux.matchPath path with
    | some h => Selected.handler h
    | none => Selected.notFound

/-- The mux built by `func main()` when the working directory is `baseDir`. -/
def main_mux (baseDir : String) : ServeMux :=
  let assetsDir := filepath_Join baseDir "shahala/assets"
  let mux := NewServeMux
  let mux := mux.Handle "/" (Handler.page PageHandler.homeHandler)
  let mux := mux.Handle "/about" (Handler.page PageHandler.aboutHandler)
  let mux := mux.Handle "/student" (Handler.page PageHandler.studentHandler)
  let mux := mux.Handle "/map" (Handler.page PageHandler.mapHandler)
  let mux := mux.Handle "/css/" (Handler.FileServer "/css/" (filepath_Join assetsDir "css"))
  let mux := mux.Handle "/fonts/" (Handler.FileServer "/fonts/" (filepath_Join assetsDir "fonts"))
  let mux := mux.Handle "/images/" (Handler.FileServer "/images/" (filepath_Join assetsDir "images"))
  let mux := mux.Handle "/js/" (Handler.FileServer "/js/" (filepath_Join assetsDir "js"))
  mux

/-- The value `main` assigns to the global `templatesDir`. -/
def main_templatesDir (baseDir : String) : String := filepath_Join baseDir "shahala/assets"

/-- The handler the mux of `main` selects for a request path. -/
def dispatch (baseDir : String) (path : String) : Selected :=
  (main_mux baseDir).Handler path

/-- Go `mux.ServeHTTP(w, r)` for the mux of `main`: the handler selected for
the path of the request is run on the request. A page handler gives its
response; the not-found handler replies `http.Error(w, "404 page not found",
404)`; the redirect and the static file server are answered inside `net/http`
and their replies are not represented (`none`). -/
def serve (baseDir : String) (W : World) (w : ResponseWriter) (r : Request) :
    Option (ResponseWriter × World) :=
  match dispatch baseDir r.Path with
  | Selected.handler (Handler.page f) => some (f.ServeHTTP W w r)
  | Selected.handler (Handler.FileServer _ _) => none
  | Selected.redirect => none
  | Selected.notFound => some (http_Error w "404 page not found" StatusNotFound, W)

/-! ## Definitions used to state the properties -/

/-- The article built from a row by the positional `rows.Scan` of
`getArticlesFromDB`. -/
def articleOfRow (row : ArticleRow) : Article :=
  { ID := row.id, Title := row.title, Category := row.category, ImageURL := row.image_url }

/-- The video link built from a row by the positional `rows.Scan` of
`getVideoLinksFromDB`. -/
def videoLinkOfRow (row : VideoLinkRow) : VideoLink :=
  { ID := row.id, URL := row.url, Img := row.img }

/-- Whether the scan of a row failed. -/
def scanFailed {ρ : Type} : Except Error ρ → Bool
  | Except.error _ => true
  | Except.ok _ => false

/-- Body shared by `homeHandler` and `aboutHandler`, with the template file
name as a parameter. -/
def articlesAndVideosPage (filename : String) (W : World) (w : ResponseWriter) :
    ResponseWriter × World :=
  match getArticlesFromDB W with
  | (_, some err, W) =>
    (http_Error w err StatusInternalServerError, log_Println W "Error getting articles from DB:" err)
  | (articles, none, W) =>
    match getVideoLinksFromDB W with
    | (_, some err, W) =>
      (http_Error w err StatusInternalServerError,
        log_Println W "Error getting video links from DB:" err)
    | (videoLinks, none, W) =>
      renderHTML W w filename W.templatesDir { Articles := articles, VideoLinks := videoLinks }

/-- Body shared by `studentHandler` and `mapHandler`, with the template file
name as a parameter. -/
def articlesPage (filename : String) (W : World) (w : ResponseWriter) : ResponseWriter × World :=
  match getArticlesFromDB W with
  | (_, some err, W) =>
    (http_Error w err StatusInternalServerError, log_Println W "Error getting articles from DB:" err)
  | (articles, none, W) =>
    renderHTML W w filename W.templatesDir { Articles := articles, VideoLinks := Slice.nil }

/-- Template file name each page handler passes to `renderHTML`. -/
def PageHandler.filename : PageHandler → String
  | PageHandler.homeHandler => "index.html"
  | PageHandler.aboutHandler => "article.html"
  | PageHandler.studentHandler => "first.html"
  | PageHandler.mapHandler => "map.html"

/-- The view model a page handler builds once its list operations have
returned: the articles returned by `getArticlesFromDB`, and the video links
returned by `getVideoLinksFromDB` for the handlers that fetch them, the unset
(nil) field for the others. -/
def viewDataOf (withVideoLinks : Bool) (W : World) : ViewData :=
  { Articles := (getArticlesFromDB W).1,
    VideoLinks :=
      if withVideoLinks then (getVideoLinksFromDB (getArticlesFromDB W).2.2).1 else Slice.nil }

/-- Whether the page handler fetches the video links. -/
def PageHandler.withVideoLinks : PageHandler → Bool
  | PageHandler.homeHandler => true
  | PageHandler.aboutHandler => true
  | PageHandler.studentHandler => false
  | PageHandler.mapHandler => false

/-- Trace entries emitted by `getArticlesFromDB`. -/
def Event.ofArticles : Event → Bool
  | Event.getArticlesFromDB => true
  | Event.Query _ => true
  | Event.Println _ => true
  | _ => false

/-- Trace entries emitted by `getVideoLinksFromDB`. -/
def Event.ofVideoLinks : Event → Bool
  | Event.getVideoLinksFromDB => true
  | Event.Query _ => true
  | Event.Println _ => true
  | _ => false

/-- Trace entries recording a call of `renderHTML`. -/
def Event.isRenderHTML : Event → Bool
  | Event.renderHTML _ _ _ => true
  | _ => false

/-- Trace entries recording a call of `tmpl.Execute`. -/
def Event.isExecute : Event → Bool
  | Event.Execute _ _ => true
  | _ => false

/-- Trace entries recording a call of `getVideoLinksFromDB`. -/
def Event.isGetVideoLinks : Event → Bool
  | Event.getVideoLinksFromDB => true
  | _ => false

/-- The world in which the template file at `path` is missing:
`template.ParseFiles(path)` fails with `e`, every other file is as before. -/
def World.removeFile (W : World) (path : String) (e : Error) : World :=
  { W with ParseFiles := fun p => if p = path then Except.error e else W.ParseFiles p }

/-! ## Example worlds -/

/-- The article row of the scenario of the specification. -/
def examRow : ArticleRow :=
  { id := 1, title := "Exam Results", category := "news", image_url := "/images/a.jpg" }

/-- A video link row. -/
def clipRow : VideoLinkRow := { id := 7, url := "https://video.example/v/7", img := "/images/v7.jpg" }

/-- A template that renders a fixed page. -/
def pageTemplate (page : String) : Template := { Execute := fun _ => (page, none) }

/-- A template whose execution fails after part of the page was written. -/
def failingTemplate : Template :=
  { Execute := fun _ => ("<html><body>", some "template: index.html:12:20: executing") }

/-- A world with the given store whose template files all parse, for the
program started in the directory `/srv`. -/
def worldOf (db : DB) : World :=
  { db := db, templatesDir := main_templatesDir "/srv",
    ParseFiles := fun path => Except.ok (pageTemplate ("<html>" ++ path ++ "</html>")),
    trace := [] }

/-- Store of the scenario: the one article, no video links. -/
def examDB : DB :=
  { articles := Except.ok { scans := [Except.ok examRow], err := none },
    video_links := Except.ok { scans := [], err := none } }

/-- Store with one article and one video link. -/
def fullDB : DB :=
  { articles := Except.ok { scans := [Except.ok examRow], err := none },
    video_links := Except.ok { scans := [Except.ok clipRow], err := none } }

/-- Store whose two tables are empty. -/
def emptyDB : DB :=
  { articles := Except.ok { scans := [], err := none },
    video_links := Except.ok { scans := [], err := none } }

/-- Store where the articles query is accepted and its one row decodes, but
the iteration ends with an error. -/
def lostRowsDB : DB :=
  { articles := Except.ok { scans := [Except.ok examRow], err := some "invalid connection" },
    video_links := Except.ok { scans := [], err := none } }

/-- Store where the articles query is accepted and yields no row, but the
iteration ends with an error. -/
def lostEmptyDB : DB :=
  { articles := Except.ok { scans := [], err := some "invalid connection" },
    video_links := Except.ok { scans := [], err := none } }

/-- Store whose connection is unavailable: both queries are rejected. -/
def downDB : DB :=
  { articles := Except.error "dial tcp 127.0.0.1:3306: connect: connection refused",
    video_links := Except.error "dial tcp 127.0.0.1:3306: connect: connection refused" }

/-- A world whose template files all parse but fail during execution. -/
def brokenPageWorld : World :=
  { db := fullDB, templatesDir := main_templatesDir "/srv",
    ParseFiles := fun _ => Except.ok failingTemplate, trace := [] }

/-- The world of the scenario with the template file of `/map` deleted. -/
def noMapWorld : World :=
  (worldOf examDB).removeFile "/srv/shahala/assets/map.html"
    "open /srv/shahala/assets/map.html: no such file or directory"

/-- A request. -/
def getRequest (path : String) : Request :=
  { Method := "GET", Path := path, RawQuery := "", Header := [], Cookies := [], Body := "" }

/-- Another request for the same route, with a query string, headers, a cookie
and a body. -/
def busyRequest (path : String) : Request :=
  { Method := "POST", Path := path, RawQuery := "id=7&sort=title",
    Header := [("Accept", "text/html"), ("X-Forwarded-For", "10.0.0.9")],
    Cookies := [("session", "abc")], Body := "title=x" }

/-! ## Lemmas -/

theorem articles_loop_decoded (rows : List ArticleRow) (acc : Slice Article) :
    getArticlesFromDB_loop (rows.map Except.ok) acc =
      Except.ok (if rows = [] then acc else Slice.mk (acc.toList ++ rows.map articleOfRow)) := by
  induction rows generalizing acc with
  | nil => simp [getArticlesFromDB_loop]
  | cons r rest ih =>
    simp only [List.map_cons, getArticlesFromDB_loop, ih]
    by_cases h : rest = [] <;> simp [h, Slice.append, Slice.toList, articleOfRow]

theorem videoLinks_loop_decoded (rows : List VideoLinkRow) (acc : Slice VideoLink) :
    getVideoLinksFromDB_loop (rows.map Except.ok) acc =
      Except.ok (if rows = [] then acc else Slice.mk (acc.toList ++ rows.map videoLinkOfRow)) := by
  induction rows generalizing acc with
  | nil => simp [getVideoLinksFromDB_loop]
  | cons r rest ih =>
    simp only [List.map_cons, getVideoLinksFromDB_loop, ih]
    by_cases h : rest = [] <;> simp [h, Slice.append, Slice.toList, videoLinkOfRow]

theorem articles_loop_error_iff (scans : List (Except Error ArticleRow)) (acc : Slice Article) :
    (∃ e, getArticlesFromDB_loop scans acc = Except.error e) ↔ ∃ s ∈ scans, scanFailed s = true := by
  induction scans generalizing acc with
  | nil => simp [getArticlesFromDB_loop]
  | cons s rest ih =>
    cases s with
    | error e => simp [getArticlesFromDB_loop, scanFailed]
    | ok row => simp [getArticlesFromDB_loop, scanFailed, ih]

theorem ServeHTTP_eq (f : PageHandler) (W : World) (w : ResponseWriter) (r : Request) :
    f.ServeHTTP W w r =
      if f.withVideoLinks then articlesAndVideosPage f.filename W w
      else articlesPage f.filename W w := by
  cases f <;> rfl

theorem getArticlesFromDB_frame (W : World) :
    ∃ evs : List Event, (∀ ev ∈ evs, ev.ofArticles = true) ∧
      ∀ V : World, V.db.articles = W.db.articles →
        getArticlesFromDB V =
          ((getArticlesFromDB W).1, (getArticlesFromDB W).2.1,
            { V with trace := V.trace ++ evs }) := by
  refine ⟨(getArticlesFromDB { W with trace := [] }).2.2.trace, ?_, fun V hV => ?_⟩ <;>
  · cases hq : W.db.articles with
    | error e =>
      simp_all [getArticlesFromDB, World.emit, log_Println, Event.ofArticles]
    | ok R =>
      cases hl : getArticlesFromDB_loop R.scans Slice.nil with
      | error e => simp_all [getArticlesFromDB, World.emit, log_Println, Event.ofArticles]
      | ok articles =>
        cases he : R.err <;>
          simp_all [getArticlesFromDB, World.emit, log_Println, Event.ofArticles]

theorem getVideoLinksFromDB_frame (W : World) :
    ∃ evs : List Event, (∀ ev ∈ evs, ev.ofVideoLinks = true) ∧
      ∀ V : World, V.db.video_links = W.db.video_links →
        getVideoLinksFromDB V =
          ((getVideoLinksFromDB W).1, (getVideoLinksFromDB W).2.1,
            { V with trace := V.trace ++ evs }) := by
  refine ⟨(getVideoLinksFromDB { W with trace := [] }).2.2.trace, ?_, fun V hV => ?_⟩ <;>
  · cases hq : W.db.video_links with
    | error e =>
      simp_all [getVideoLinksFromDB, World.emit, log_Println, Event.ofVideoLinks]
    | ok R =>
      cases hl : getVideoLinksFromDB_loop R.scans Slice.nil with
      | error e =>
        simp_all [getVideoLinksFromDB, World.emit, log_Println, Event.ofVideoLinks]
      | ok articles =>
        cases he : R.err <;>
          simp_all [getVideoLinksFromDB, World.emit, log_Println, Event.ofVideoLinks]

theorem renderHTML_frame (W : World) (filename dir : String) (data : ViewData) :
    ∃ evs : List Event,
      evs.filter Event.isRenderHTML = [Event.renderHTML filename dir data] ∧
      evs.filter Event.isGetVideoLinks = [] ∧
      ∀ (V : World) (w : ResponseWriter),
        V.ParseFiles (filepath_Join dir filename) = W.ParseFiles (filepath_Join dir filename) →
        renderHTML V w filename dir data =
          ((renderHTML W w filename dir data).1, { V with trace := V.trace ++ evs }) := by
  refine ⟨(renderHTML { W with trace := [] } [] filename dir data).2.trace, ?_, ?_,
    fun V w hV => ?_⟩ <;>
  · cases hp : W.ParseFiles (filepath_Join dir filename) <;>
      simp_all [renderHTML, World.emit, log_Println, Event.isRenderHTML, Event.isGetVideoLinks]

theorem filter_ofArticles (p : Event → Bool) (evs : List Event)
    (h : ∀ ev ∈ evs, ev.ofArticles = true)
    (hp : ∀ ev, ev.ofArticles = true → p ev = false) : evs.filter p = [] := by
  rw [List.filter_eq_nil_iff]
  intro ev hev
  simp [hp ev (h ev hev)]

theorem filter_ofVideoLinks (p : Event → Bool) (evs : List Event)
    (h : ∀ ev ∈ evs, ev.ofVideoLinks = true)
    (hp : ∀ ev, ev.ofVideoLinks = true → p ev = false) : evs.filter p = [] := by
  rw [List.filter_eq_nil_iff]
  intro ev hev
  simp [hp ev (h ev hev)]

theorem ofArticles_not_render (ev : Event) (h : ev.ofArticles = true) :
    ev.isRenderHTML = false := by
  cases ev <;> simp_all [Event.ofArticles, Event.isRenderHTML]

theorem ofArticles_not_execute (ev : Event) (h : ev.ofArticles = true) :
    ev.isExecute = false := by
  cases ev <;> simp_all [Event.ofArticles, Event.isExecute]

theorem ofArticles_not_videoLinks (ev : Event) (h : ev.ofArticles = true) :
    ev.isGetVideoLinks = false := by
  cases ev <;> simp_all [Event.ofArticles, Event.isGetVideoLinks]

theorem ofVideoLinks_not_render (ev : Event) (h : ev.ofVideoLinks = true) :
    ev.isRenderHTML = false := by
  cases ev <;> simp_all [Event.ofVideoLinks, Event.isRenderHTML]

theorem ofVideoLinks_not_execute (ev : Event) (h : ev.ofVideoLinks = true) :
    ev.isExecute = false := by
  cases ev <;> simp_all [Event.ofVideoLinks, Event.isExecute]

/-- What a page of articles does, in terms of the outcome of the list
operation: the error reply, or the call of `renderHTML`. -/
theorem articlesPage_cases (filename : String) (W : World) :
    ∃ ea : List Event, (∀ ev ∈ ea, ev.ofArticles = true) ∧
      ∀ (V : World) (w : ResponseWriter), V.db.articles = W.db.articles →
        articlesPage filename V w =
          match (getArticlesFromDB W).2.1 with
          | some e => (http_Error w e StatusInternalServerError,
              { V with trace := V.trace ++ ea ++
                [Event.Println ("Error getting articles from DB:" ++ " " ++ e)] })
          | none => renderHTML { V with trace := V.trace ++ ea } w filename V.templatesDir
              { Articles := (getArticlesFromDB W).1, VideoLinks := Slice.nil } := by
  obtain ⟨ea, hea, hA⟩ := getArticlesFromDB_frame W
  refine ⟨ea, hea, fun V w hV => ?_⟩
  have h := hA V hV
  rcases hres : getArticlesFromDB W with ⟨a, e, W1⟩
  rw [hres] at h
  cases e <;> simp [articlesPage, h, log_Println, World.emit]

/-- What a page of articles and video links does, in terms of the outcomes of
the two list operations. -/
theorem articlesAndVideosPage_cases (filename : String) (W : World) :
    ∃ ea ev : List Event, (∀ x ∈ ea, x.ofArticles = true) ∧ (∀ x ∈ ev, x.ofVideoLinks = true) ∧
      ∀ (V : World) (w : ResponseWriter), V.db.articles = W.db.articles →
        V.db.video_links = W.db.video_links →
        articlesAndVideosPage filename V w =
          match (getArticlesFromDB W).2.1 with
          | some e => (http_Error w e StatusInternalServerError,
              { V with trace := V.trace ++ ea ++
                [Event.Println ("Error getting articles from DB:" ++ " " ++ e)] })
          | none =>
            match (getVideoLinksFromDB W).2.1 with
            | some e => (http_Error w e StatusInternalServerError,
                { V with trace := V.trace ++ ea ++ ev ++
                  [Event.Println ("Error getting video links from DB:" ++ " " ++ e)] })
            | none =>
              renderHTML { V with trace := V.trace ++ ea ++ ev } w filename V.templatesDir
                { Articles := (getArticlesFromDB W).1,
                  VideoLinks := (getVideoLinksFromDB W).1 } := by
  obtain ⟨ea, hea, hA⟩ := getArticlesFromDB_frame W
  obtain ⟨ev, hev, hB⟩ := getVideoLinksFromDB_frame W
  refine ⟨ea, ev, hea, hev, fun V w hV hV2 => ?_⟩
  have h := hA V hV
  have h2 := hB { V with trace := V.trace ++ ea } hV2
  rcases hres : getArticlesFromDB W with ⟨a, e, W1⟩
  rcases hres2 : getVideoLinksFromDB W with ⟨v, e2, W2⟩
  rw [hres] at h
  rw [hres2] at h2
  cases e with
  | some e => simp [articlesAndVideosPage, h, log_Println, World.emit]
  | none =>
    cases e2 <;> simp [articlesAndVideosPage, h, h2, log_Println, World.emit]

theorem after_articles (W : World) :
    ∃ ea : List Event, (∀ ev ∈ ea, ev.ofArticles = true) ∧
      (getArticlesFromDB W).2.2 = { W with trace := W.trace ++ ea } := by
  obtain ⟨ea, hea, hA⟩ := getArticlesFromDB_frame W
  exact ⟨ea, hea, by rw [hA W rfl]⟩

theorem after_videoLinks (W : World) :
    ∃ ev : List Event, (∀ x ∈ ev, x.ofVideoLinks = true) ∧
      (getVideoLinksFromDB W).2.2 = { W with trace := W.trace ++ ev } := by
  obtain ⟨ev, hev, hB⟩ := getVideoLinksFromDB_frame W
  exact ⟨ev, hev, by rw [hB W rfl]⟩

theorem videoLinks_after_articles (W : World) :
    (getVideoLinksFromDB (getArticlesFromDB W).2.2).1 = (getVideoLinksFromDB W).1 ∧
    (getVideoLinksFromDB (getArticlesFromDB W).2.2).2.1 = (getVideoLinksFromDB W).2.1 := by
  obtain ⟨ea, -, hW1⟩ := after_articles W
  obtain ⟨ev, -, hB⟩ := getVideoLinksFromDB_frame W
  have h := hB (getArticlesFromDB W).2.2 (by rw [hW1])
  rw [h]
  exact ⟨rfl, rfl⟩

theorem storage_error_reply (f : PageHandler) (W : World) (r : Request) (e : Error)
    (h : (getArticlesFromDB W).2.1 = some e ∨
      ((f = PageHandler.homeHandler ∨ f = PageHandler.aboutHandler) ∧
        (getArticlesFromDB W).2.1 = none ∧
        (getVideoLinksFromDB (getArticlesFromDB W).2.2).2.1 = some e)) :
    ∃ evs : List Event, evs.filter Event.isRenderHTML = [] ∧ evs.filter Event.isExecute = [] ∧
      ∀ w, f.ServeHTTP W w r =
        (http_Error w e StatusInternalServerError, { W with trace := W.trace ++ evs }) := by
  rw [(videoLinks_after_articles W).2] at h
  by_cases hw : f.withVideoLinks = true
  · obtain ⟨ea, ev, hea, hev, hc⟩ := articlesAndVideosPage_cases f.filename W
    have har := filter_ofArticles Event.isRenderHTML ea hea ofArticles_not_render
    have hax := filter_ofArticles Event.isExecute ea hea ofArticles_not_execute
    have hvr := filter_ofVideoLinks Event.isRenderHTML ev hev ofVideoLinks_not_render
    have hvx := filter_ofVideoLinks Event.isExecute ev hev ofVideoLinks_not_execute
    rcases h with h | ⟨-, h, hv⟩
    · refine ⟨ea ++ [Event.Println ("Error getting articles from DB:" ++ " " ++ e)],
        by simp [har, Event.isRenderHTML], by simp [hax, Event.isExecute], fun w => ?_⟩
      rw [ServeHTTP_eq, if_pos hw, hc W w rfl rfl]
      simp [h]
    · refine ⟨ea ++ ev ++ [Event.Println ("Error getting video links from DB:" ++ " " ++ e)],
        by simp [har, hvr, Event.isRenderHTML], by simp [hax, hvx, Event.isExecute],
        fun w => ?_⟩
      rw [ServeHTTP_eq, if_pos hw, hc W w rfl rfl]
      simp [h, hv]
  · obtain ⟨ea, hea, hc⟩ := articlesPage_cases f.filename W
    have har := filter_ofArticles Event.isRenderHTML ea hea ofArticles_not_render
    have hax := filter_ofArticles Event.isExecute ea hea ofArticles_not_execute
    rcases h with h | ⟨hf, -, -⟩
    · refine ⟨ea ++ [Event.Println ("Error getting articles from DB:" ++ " " ++ e)],
        by simp [har, Event.isRenderHTML], by simp [hax, Event.isExecute], fun w => ?_⟩
      rw [ServeHTTP_eq, if_neg hw, hc W w rfl]
      simp [h]
    · rcases hf with hf | hf <;> subst hf <;> simp [PageHandler.withVideoLinks] at hw

theorem articlesPage_frame (filename : String) (W : World) :
    ∃ evs : List Event, evs.filter Event.isGetVideoLinks = [] ∧
      ∀ (V : World) (w : ResponseWriter), V.db.articles = W.db.articles →
        V.templatesDir = W.templatesDir →
        V.ParseFiles (filepath_Join W.templatesDir filename) =
          W.ParseFiles (filepath_Join W.templatesDir filename) →
        articlesPage filename V w =
          ((articlesPage filename W w).1, { V with trace := V.trace ++ evs }) := by
  obtain ⟨ea, hea, hc⟩ := articlesPage_cases filename W
  have hv := filter_ofArticles Event.isGetVideoLinks ea hea ofArticles_not_videoLinks
  cases he : (getArticlesFromDB W).2.1 with
  | some e =>
    refine ⟨ea ++ [Event.Println ("Error getting articles from DB:" ++ " " ++ e)],
      by simp [hv, Event.isGetVideoLinks], fun V w hA _ _ => ?_⟩
    rw [hc V w hA, hc W w rfl]
    simp [he]
  | none =>
    obtain ⟨er, -, hrv, hR⟩ := renderHTML_frame W filename W.templatesDir
      { Articles := (getArticlesFromDB W).1, VideoLinks := Slice.nil }
    refine ⟨ea ++ er, by simp [hv, hrv], fun V w hA hd hp => ?_⟩
    rw [hc V w hA, hc W w rfl]
    rcases V with ⟨vdb, vdir, vfiles, vtrace⟩
    simp only at hd hp
    subst hd
    simp only [he]
    rw [hR ⟨vdb, W.templatesDir, vfiles, vtrace ++ ea⟩ w hp,
      hR { W with trace := W.trace ++ ea } w rfl]
    simp

theorem articlesAndVideosPage_frame (filename : String) (W : World) :
    ∃ evs : List Event,
      ∀ (V : World) (w : ResponseWriter), V.db.articles = W.db.articles →
        V.db.video_links = W.db.video_links → V.templatesDir = W.templatesDir →
        V.ParseFiles (filepath_Join W.templatesDir filename) =
          W.ParseFiles (filepath_Join W.templatesDir filename) →
        articlesAndVideosPage filename V w =
          ((articlesAndVideosPage filename W w).1, { V with trace := V.trace ++ evs }) := by
  obtain ⟨ea, ev, -, -, hc⟩ := articlesAndVideosPage_cases filename W
  cases he : (getArticlesFromDB W).2.1 with
  | some e =>
    refine ⟨ea ++ [Event.Println ("Error getting articles from DB:" ++ " " ++ e)],
      fun V w hA hV _ _ => ?_⟩
    rw [hc V w hA hV, hc W w rfl rfl]
    simp [he]
  | none =>
    cases he2 : (getVideoLinksFromDB W).2.1 with
    | some e =>
      refine ⟨ea ++ ev ++ [Event.Println ("Error getting video links from DB:" ++ " " ++ e)],
        fun V w hA hV _ _ => ?_⟩
      rw [hc V w hA hV, hc W w rfl rfl]
      simp [he, he2]
    | none =>
      obtain ⟨er, -, -, hR⟩ := renderHTML_frame W filename W.templatesDir
        { Articles := (getArticlesFromDB W).1, VideoLinks := (getVideoLinksFromDB W).1 }
      refine ⟨ea ++ ev ++ er, fun V w hA hV hd hp => ?_⟩
      rw [hc V w hA hV, hc W w rfl rfl]
      rcases V with ⟨vdb, vdir, vfiles, vtrace⟩
      simp only at hd hp
      subst hd
      simp only [he, he2]
      rw [hR ⟨vdb, W.templatesDir, vfiles, vtrace ++ ea ++ ev⟩ w hp,
        hR { W with trace := W.trace ++ ea ++ ev } w rfl]
      simp

theorem ServeHTTP_frame (f : PageHandler) (W : World) :
    ∃ evs : List Event,
      ∀ (V : World) (w : ResponseWriter) (r : Request), V.db.articles = W.db.articles →
        V.db.video_links = W.db.video_links → V.templatesDir = W.templatesDir →
        V.ParseFiles (filepath_Join W.templatesDir f.filename) =
          W.ParseFiles (filepath_Join W.templatesDir f.filename) →
        f.ServeHTTP V w r = ((f.ServeHTTP W w r).1, { V with trace := V.trace ++ evs }) := by
  by_cases hw : f.withVideoLinks = true
  · obtain ⟨evs, h⟩ := articlesAndVideosPage_frame f.filename W
    refine ⟨evs, fun V w r hA hV hd hp => ?_⟩
    rw [ServeHTTP_eq, ServeHTTP_eq, if_pos hw, if_pos hw]
    exact h V w hA hV hd hp
  · obtain ⟨evs, -, h⟩ := articlesPage_frame f.filename W
    refine ⟨evs, fun V w r hA _ hd hp => ?_⟩
    rw [ServeHTTP_eq, ServeHTTP_eq, if_neg hw, if_neg hw]
    exact h V w hA hd hp

theorem filepath_Join_injective (dir a b : String)
    (h : filepath_Join dir a = filepath_Join dir b) : a = b := by
  have h1 := congrArg String.data h
  simp only [filepath_Join, String.data_append, List.append_assoc] at h1
  have h2 := List.append_cancel_left (List.append_cancel_left h1)
  exact String.ext h2

theorem articlesPage_ok (filename : String) (W : World) (w : ResponseWriter)
    (h : (getArticlesFromDB W).2.1 = none) :
    articlesPage filename W w = renderHTML (getArticlesFromDB W).2.2 w filename W.templatesDir
      { Articles := (getArticlesFromDB W).1, VideoLinks := Slice.nil } := by
  obtain ⟨ea, -, hW1⟩ := after_articles W
  rcases hres : getArticlesFromDB W with ⟨a, e, W1⟩
  rw [hres] at h hW1
  simp only at h hW1
  subst h
  subst hW1
  simp [articlesPage, hres]

theorem articlesAndVideosPage_ok (filename : String) (W : World) (w : ResponseWriter)
    (h : (getArticlesFromDB W).2.1 = none)
    (hv : (getVideoLinksFromDB (getArticlesFromDB W).2.2).2.1 = none) :
    articlesAndVideosPage filename W w =
      renderHTML (getVideoLinksFromDB (getArticlesFromDB W).2.2).2.2 w filename W.templatesDir
        { Articles := (getArticlesFromDB W).1,
          VideoLinks := (getVideoLinksFromDB (getArticlesFromDB W).2.2).1 } := by
  obtain ⟨ea, -, hW1⟩ := after_articles W
  rcases hres : getArticlesFromDB W with ⟨a, e, W1⟩
  rw [hres] at h hv hW1
  simp only at h hv hW1
  subst h
  obtain ⟨ev, -, hW2⟩ := after_videoLinks W1
  rcases hres' : getVideoLinksFromDB W1 with ⟨v, e, W2⟩
  rw [hres'] at hv hW2
  simp only at hv hW2
  subst hv
  subst hW2
  subst hW1
  simp [articlesAndVideosPage, hres, hres']

theorem renderHTML_render_calls (W : World) (w : ResponseWriter) (filename dir : String)
    (data : ViewData) :
    (renderHTML W w filename dir data).2.trace.filter Event.isRenderHTML =
      W.trace.filter Event.isRenderHTML ++ [Event.renderHTML filename dir data] := by
  cases hp : W.ParseFiles (filepath_Join dir filename) <;>
    simp [renderHTML, World.emit, log_Println, hp, Event.isRenderHTML]

theorem after_both (W : World) :
    ∃ evs : List Event, evs.filter Event.isRenderHTML = [] ∧
      (getVideoLinksFromDB (getArticlesFromDB W).2.2).2.2 =
        { W with trace := W.trace ++ evs } := by
  obtain ⟨ea, hea, hW1⟩ := after_articles W
  obtain ⟨ev, hev, hW2⟩ := after_videoLinks (getArticlesFromDB W).2.2
  have har := filter_ofArticles Event.isRenderHTML ea hea ofArticles_not_render
  have hvr := filter_ofVideoLinks Event.isRenderHTML ev hev ofVideoLinks_not_render
  refine ⟨ea ++ ev, by simp [har, hvr], ?_⟩
  rw [hW2, hW1]
  simp

/-! ## Theorems on the list operations -/

/-- C1 (as stated, refuted): in the store `lostRowsDB` the articles query is
accepted and every row decodes, yet `getArticlesFromDB` returns an error and
the nil slice, not one article per row, because `rows.Err()` is not nil. -/
theorem getArticlesFromDB_decoding_rows_not_enough :
    lostRowsDB.articles = Except.ok { scans := [examRow].map Except.ok, err := some "invalid connection" } ∧
    (getArticlesFromDB (worldOf lostRowsDB)).2.1 = some "invalid connection" ∧
    (getArticlesFromDB (worldOf lostRowsDB)).1 = Slice.nil ∧
    (getArticlesFromDB (worldOf lostRowsDB)).1.len ≠ [examRow].length := by
  refine ⟨rfl, ?_, ?_, ?_⟩ <;> decide

/-- C1 (amended): when the query is accepted, every row decodes and the
iteration ends without error, `getArticlesFromDB` returns no error and one
article per row, in iteration order, with `ID, Title, Category, ImageURL`
equal to the columns `id, title, category, image_url` of the row; and
`getVideoLinksFromDB` likewise returns one video link per row with
`ID, URL, Img` equal to the columns `id, url, img`. -/
theorem list_operations_return_rows
    (W : World) (R : Rows ArticleRow) (rows : List ArticleRow)
    (hq : W.db.articles = Except.ok R) (hdec : R.scans = rows.map Except.ok)
    (herr : R.err = none)
    (W' : World) (R' : Rows VideoLinkRow) (rows' : List VideoLinkRow)
    (hq' : W'.db.video_links = Except.ok R') (hdec' : R'.scans = rows'.map Except.ok)
    (herr' : R'.err = none) :
    ((getArticlesFromDB W).2.1 = none ∧
      (getArticlesFromDB W).1.len = rows.length ∧
      (getArticlesFromDB W).1.toList = rows.map (fun row =>
        { ID := row.id, Title := row.title, Category := row.category,
          ImageURL := row.image_url })) ∧
    ((getVideoLinksFromDB W').2.1 = none ∧
      (getVideoLinksFromDB W').1.len = rows'.length ∧
      (getVideoLinksFromDB W').1.toList = rows'.map (fun row =>
        { ID := row.id, URL := row.url, Img := row.img })) := by
  constructor
  · simp only [getArticlesFromDB, World.emit, hq, hdec, herr, articles_loop_decoded]
    by_cases h : rows = [] <;> simp [h, Slice.len, Slice.toList, articleOfRow]
  · simp only [getVideoLinksFromDB, World.emit, hq', hdec', herr', videoLinks_loop_decoded]
    by_cases h : rows' = [] <;> simp [h, Slice.len, Slice.toList, videoLinkOfRow]

/-- Witness of C1 (amended) on the store with one article and one video link. -/
theorem list_operations_return_rows_witness :
    ((getArticlesFromDB (worldOf fullDB)).2.1 = none ∧
      (getArticlesFromDB (worldOf fullDB)).1.len = [examRow].length ∧
      (getArticlesFromDB (worldOf fullDB)).1.toList = [examRow].map (fun row =>
        { ID := row.id, Title := row.title, Category := row.category,
          ImageURL := row.image_url })) ∧
    ((getVideoLinksFromDB (worldOf fullDB)).2.1 = none ∧
      (getVideoLinksFromDB (worldOf fullDB)).1.len = [clipRow].length ∧
      (getVideoLinksFromDB (worldOf fullDB)).1.toList = [clipRow].map (fun row =>
        { ID := row.id, URL := row.url, Img := row.img })) :=
  list_operations_return_rows (worldOf fullDB) { scans := [Except.ok examRow], err := none }
    [examRow] rfl rfl rfl (worldOf fullDB) { scans := [Except.ok clipRow], err := none }
    [clipRow] rfl rfl rfl

/-- C5 (as stated, refuted): on the empty store each list operation returns
no error, but the slice it returns is the nil slice, the unset zero value of
`var articles []Article`, not an allocated empty slice; and on `lostEmptyDB`
the query is accepted and yields no row, yet an error is returned. -/
theorem empty_table_returns_nil_slice :
    ((getArticlesFromDB (worldOf emptyDB)).2.1 = none ∧
      (getArticlesFromDB (worldOf emptyDB)).1.isNil = true ∧
      (getArticlesFromDB (worldOf emptyDB)).1 ≠ Slice.mk []) ∧
    ((getVideoLinksFromDB (worldOf emptyDB)).2.1 = none ∧
      (getVideoLinksFromDB (worldOf emptyDB)).1.isNil = true ∧
      (getVideoLinksFromDB (worldOf emptyDB)).1 ≠ Slice.mk []) ∧
    (lostEmptyDB.articles = Except.ok { scans := [], err := some "invalid connection" } ∧
      (getArticlesFromDB (worldOf lostEmptyDB)).2.1 = some "invalid connection") := by
  refine ⟨⟨?_, ?_, ?_⟩, ⟨?_, ?_, ?_⟩, rfl, ?_⟩ <;> decide

/-- C5 (amended): when the query is accepted, yields no row and the iteration
ends without error, each list operation returns no error and a slice of length
zero with no element; that slice is the nil slice. -/
theorem empty_table_returns_no_rows
    (W : World) (R : Rows ArticleRow)
    (hq : W.db.articles = Except.ok R) (hrows : R.scans = []) (herr : R.err = none)
    (W' : World) (R' : Rows VideoLinkRow)
    (hq' : W'.db.video_links = Except.ok R') (hrows' : R'.scans = []) (herr' : R'.err = none) :
    ((getArticlesFromDB W).2.1 = none ∧ (getArticlesFromDB W).1.len = 0 ∧
      (getArticlesFromDB W).1.toList = [] ∧ (getArticlesFromDB W).1 = Slice.nil) ∧
    ((getVideoLinksFromDB W').2.1 = none ∧ (getVideoLinksFromDB W').1.len = 0 ∧
      (getVideoLinksFromDB W').1.toList = [] ∧ (getVideoLinksFromDB W').1 = Slice.nil) := by
  constructor
  · simp [getArticlesFromDB, World.emit, hq, hrows, herr, getArticlesFromDB_loop,
      Slice.len, Slice.toList]
  · simp [getVideoLinksFromDB, World.emit, hq', hrows', herr', getVideoLinksFromDB_loop,
      Slice.len, Slice.toList]

/-- Witness of C5 (amended) on the empty store. -/
theorem empty_table_returns_no_rows_witness :
    ((getArticlesFromDB (worldOf emptyDB)).2.1 = none ∧
      (getArticlesFromDB (worldOf emptyDB)).1.len = 0 ∧
      (getArticlesFromDB (worldOf emptyDB)).1.toList = [] ∧
      (getArticlesFromDB (worldOf emptyDB)).1 = Slice.nil) ∧
    ((getVideoLinksFromDB (worldOf emptyDB)).2.1 = none ∧
      (getVideoLinksFromDB (worldOf emptyDB)).1.len = 0 ∧
      (getVideoLinksFromDB (worldOf emptyDB)).1.toList = [] ∧
      (getVideoLinksFromDB (worldOf emptyDB)).1 = Slice.nil) :=
  empty_table_returns_no_rows (worldOf emptyDB) { scans := [], err := none } rfl rfl rfl
    (worldOf emptyDB) { scans := [], err := none } rfl rfl rfl

/-- C6: `getArticlesFromDB` returns an error exactly when the query is
rejected, or the query is accepted and some row fails in `rows.Scan` or
`rows.Err()` is not nil; and whenever it returns an error the slice it returns
is nil, so no article decoded before the failure is returned. -/
theorem getArticlesFromDB_error_iff (W : World) :
    ((getArticlesFromDB W).2.1 ≠ none ↔
      ((∃ e, W.db.articles = Except.error e) ∨
        ∃ R, W.db.articles = Except.ok R ∧
          ((∃ s ∈ R.scans, scanFailed s = true) ∨ R.err ≠ none))) ∧
    ((getArticlesFromDB W).2.1 ≠ none →
      (getArticlesFromDB W).1 = Slice.nil ∧ (getArticlesFromDB W).1.toList = []) := by
  cases hq : W.db.articles with
  | error e => simp [getArticlesFromDB, World.emit, hq, Slice.toList]
  | ok R =>
    cases hl : getArticlesFromDB_loop R.scans Slice.nil with
    | error e =>
      have hs : ∃ s ∈ R.scans, scanFailed s = true :=
        (articles_loop_error_iff R.scans Slice.nil).1 ⟨e, hl⟩
      simp [getArticlesFromDB, World.emit, hq, hl, hs, Slice.toList]
    | ok articles =>
      have hs : ¬ ∃ s ∈ R.scans, scanFailed s = true := by
        intro h
        obtain ⟨e, he⟩ := (articles_loop_error_iff R.scans Slice.nil).2 h
        rw [hl] at he
        cases he
      cases he : R.err with
      | none => simp [getArticlesFromDB, World.emit, hq, hl, hs, he]
      | some e => simp [getArticlesFromDB, World.emit, hq, hl, hs, he, Slice.toList]

/-! ## Theorems on the page handlers -/

/-- C2: for each of the four page handlers, when a list operation the handler
calls returns an error `e` (`getArticlesFromDB`, or for `homeHandler` and
`aboutHandler` `getVideoLinksFromDB` after the articles were fetched), the
handler replies `http.Error(w, e, 500)` and nothing else: on a fresh writer the
response is that single reply, its status is 500, no page output is written,
and the trace gains no call of `renderHTML` and no call of `tmpl.Execute`. -/
theorem storage_error_answers_500 (f : PageHandler) (W : World) (w : ResponseWriter)
    (r : Request) (e : Error)
    (h : (getArticlesFromDB W).2.1 = some e ∨
      ((f = PageHandler.homeHandler ∨ f = PageHandler.aboutHandler) ∧
        (getArticlesFromDB W).2.1 = none ∧
        (getVideoLinksFromDB (getArticlesFromDB W).2.2).2.1 = some e)) :
    (f.ServeHTTP W w r).1 = http_Error w e StatusInternalServerError ∧
    (f.ServeHTTP W [] r).1 = [Sent.Error e 500] ∧
    status (f.ServeHTTP W [] r).1 = 500 ∧
    pageOutput (f.ServeHTTP W [] r).1 = "" ∧
    (f.ServeHTTP W w r).2.trace.filter Event.isRenderHTML =
      W.trace.filter Event.isRenderHTML ∧
    (f.ServeHTTP W w r).2.trace.filter Event.isExecute = W.trace.filter Event.isExecute := by
  obtain ⟨evs, hr, hx, hrep⟩ := storage_error_reply f W r e h
  refine ⟨by rw [hrep], ?_, ?_, ?_, ?_, ?_⟩
  · rw [hrep]; rfl
  · rw [hrep]; rfl
  · rw [hrep]; rfl
  · rw [hrep]; simp [hr]
  · rw [hrep]; simp [hx]

/-- Witness of C2: with the store down, `homeHandler` answers 500 with the
connection error. -/
theorem storage_error_answers_500_witness :
    (PageHandler.homeHandler.ServeHTTP (worldOf downDB) [] (getRequest "/")).1 =
      http_Error [] "dial tcp 127.0.0.1:3306: connect: connection refused"
        StatusInternalServerError ∧
    (PageHandler.homeHandler.ServeHTTP (worldOf downDB) [] (getRequest "/")).1 =
      [Sent.Error "dial tcp 127.0.0.1:3306: connect: connection refused" 500] ∧
    status (PageHandler.homeHandler.ServeHTTP (worldOf downDB) [] (getRequest "/")).1 = 500 ∧
    pageOutput (PageHandler.homeHandler.ServeHTTP (worldOf downDB) [] (getRequest "/")).1 = "" ∧
    (PageHandler.homeHandler.ServeHTTP (worldOf downDB) [] (getRequest "/")).2.trace.filter
        Event.isRenderHTML = (worldOf downDB).trace.filter Event.isRenderHTML ∧
    (PageHandler.homeHandler.ServeHTTP (worldOf downDB) [] (getRequest "/")).2.trace.filter
        Event.isExecute = (worldOf downDB).trace.filter Event.isExecute :=
  storage_error_answers_500 PageHandler.homeHandler (worldOf downDB) [] (getRequest "/")
    "dial tcp 127.0.0.1:3306: connect: connection refused" (Or.inl (by decide))

/-- C7: when both list operations succeed, `homeHandler` is one call of
`renderHTML` with the file `index.html`, the global `templatesDir` and the view
model whose `Articles` is the slice returned by `getArticlesFromDB` and whose
`VideoLinks` is the slice returned by `getVideoLinksFromDB`; `aboutHandler` is
the same call with the file `article.html` and the same view model; the trace
of each gains exactly that one call of `renderHTML`. -/
theorem home_about_render_both_lists (W : World) (w : ResponseWriter) (r : Request)
    (h : (getArticlesFromDB W).2.1 = none)
    (hv : (getVideoLinksFromDB (getArticlesFromDB W).2.2).2.1 = none) :
    homeHandler W w r =
      renderHTML (getVideoLinksFromDB (getArticlesFromDB W).2.2).2.2 w "index.html"
        W.templatesDir
        { Articles := (getArticlesFromDB W).1,
          VideoLinks := (getVideoLinksFromDB (getArticlesFromDB W).2.2).1 } ∧
    aboutHandler W w r =
      renderHTML (getVideoLinksFromDB (getArticlesFromDB W).2.2).2.2 w "article.html"
        W.templatesDir
        { Articles := (getArticlesFromDB W).1,
          VideoLinks := (getVideoLinksFromDB (getArticlesFromDB W).2.2).1 } ∧
    (homeHandler W w r).2.trace.filter Event.isRenderHTML =
      W.trace.filter Event.isRenderHTML ++
        [Event.renderHTML "index.html" W.templatesDir
          { Articles := (getArticlesFromDB W).1,
            VideoLinks := (getVideoLinksFromDB (getArticlesFromDB W).2.2).1 }] ∧
    (aboutHandler W w r).2.trace.filter Event.isRenderHTML =
      W.trace.filter Event.isRenderHTML ++
        [Event.renderHTML "article.html" W.templatesDir
          { Articles := (getArticlesFromDB W).1,
            VideoLinks := (getVideoLinksFromDB (getArticlesFromDB W).2.2).1 }] := by
  have hhome : homeHandler W w r = articlesAndVideosPage "index.html" W w := rfl
  have habout : aboutHandler W w r = articlesAndVideosPage "article.html" W w := rfl
  obtain ⟨evs, hevs, hW2⟩ := after_both W
  rw [hhome, habout, articlesAndVideosPage_ok "index.html" W w h hv,
    articlesAndVideosPage_ok "article.html" W w h hv]
  refine ⟨rfl, rfl, ?_, ?_⟩
  · rw [renderHTML_render_calls, hW2]
    simp [hevs]
  · rw [renderHTML_render_calls, hW2]
    simp [hevs]

/-- Witness of C7 on the store with one article and one video link. -/
theorem home_about_render_both_lists_witness :
    (getArticlesFromDB (worldOf fullDB)).2.1 = none ∧
    (homeHandler (worldOf fullDB) [] (getRequest "/")).2.trace.filter Event.isRenderHTML =
      [Event.renderHTML "index.html" "/srv/shahala/assets"
        { Articles := Slice.mk [articleOfRow examRow],
          VideoLinks := Slice.mk [videoLinkOfRow clipRow] }] ∧
    (aboutHandler (worldOf fullDB) [] (getRequest "/about")).2.trace.filter Event.isRenderHTML =
      [Event.renderHTML "article.html" "/srv/shahala/assets"
        { Articles := Slice.mk [articleOfRow examRow],
          VideoLinks := Slice.mk [videoLinkOfRow clipRow] }] :=
  ⟨by decide,
    (home_about_render_both_lists (worldOf fullDB) [] (getRequest "/")
      (by decide) (by decide)).2.2.1,
    (home_about_render_both_lists (worldOf fullDB) [] (getRequest "/about")
      (by decide) (by decide)).2.2.2⟩

/-- C8: for every store state `studentHandler` and `mapHandler` make no call
of `getVideoLinksFromDB`, and their response is the same whatever the query on
`video_links` returns; when `getArticlesFromDB` succeeds, `studentHandler` is
one call of `renderHTML` with the file `first.html` and `mapHandler` one with
the file `map.html`, on the view model whose `Articles` is the returned slice
and whose `VideoLinks` is the nil slice, which has no element. -/
theorem student_map_render_articles_only (W : World) (w : ResponseWriter) (r : Request) :
    ((studentHandler W w r).2.trace.filter Event.isGetVideoLinks =
        W.trace.filter Event.isGetVideoLinks ∧
      (mapHandler W w r).2.trace.filter Event.isGetVideoLinks =
        W.trace.filter Event.isGetVideoLinks) ∧
    (∀ vl : Except Error (Rows VideoLinkRow),
      (studentHandler { W with db := { W.db with video_links := vl } } w r).1 =
        (studentHandler W w r).1 ∧
      (mapHandler { W with db := { W.db with video_links := vl } } w r).1 =
        (mapHandler W w r).1) ∧
    ((getArticlesFromDB W).2.1 = none →
      (studentHandler W w r =
          renderHTML (getArticlesFromDB W).2.2 w "first.html" W.templatesDir
            { Articles := (getArticlesFromDB W).1, VideoLinks := Slice.nil } ∧
        mapHandler W w r =
          renderHTML (getArticlesFromDB W).2.2 w "map.html" W.templatesDir
            { Articles := (getArticlesFromDB W).1, VideoLinks := Slice.nil }) ∧
      ((studentHandler W w r).2.trace.filter Event.isRenderHTML =
          W.trace.filter Event.isRenderHTML ++
            [Event.renderHTML "first.html" W.templatesDir
              { Articles := (getArticlesFromDB W).1, VideoLinks := Slice.nil }] ∧
        (mapHandler W w r).2.trace.filter Event.isRenderHTML =
          W.trace.filter Event.isRenderHTML ++
            [Event.renderHTML "map.html" W.templatesDir
              { Articles := (getArticlesFromDB W).1, VideoLinks := Slice.nil }]) ∧
      (Slice.nil : Slice VideoLink).toList = []) := by
  have hstudent : ∀ V : World, studentHandler V w r = articlesPage "first.html" V w :=
    fun _ => rfl
  have hmap : ∀ V : World, mapHandler V w r = articlesPage "map.html" V w := fun _ => rfl
  obtain ⟨es, hes, hS⟩ := articlesPage_frame "first.html" W
  obtain ⟨em, hem, hM⟩ := articlesPage_frame "map.html" W
  refine ⟨⟨?_, ?_⟩, fun vl => ⟨?_, ?_⟩, fun h => ⟨⟨?_, ?_⟩, ⟨?_, ?_⟩, rfl⟩⟩
  · rw [hstudent, hS W w rfl rfl rfl]
    simp [hes]
  · rw [hmap, hM W w rfl rfl rfl]
    simp [hem]
  · rw [hstudent, hstudent, hS { W with db := { W.db with video_links := vl } } w rfl rfl rfl]
  · rw [hmap, hmap, hM { W with db := { W.db with video_links := vl } } w rfl rfl rfl]
  · rw [hstudent, articlesPage_ok "first.html" W w h]
  · rw [hmap, articlesPage_ok "map.html" W w h]
  · obtain ⟨ea, hea, hW1⟩ := after_articles W
    have har := filter_ofArticles Event.isRenderHTML ea hea ofArticles_not_render
    rw [hstudent, articlesPage_ok "first.html" W w h, renderHTML_render_calls, hW1]
    simp [har]
  · obtain ⟨ea, hea, hW1⟩ := after_articles W
    have har := filter_ofArticles Event.isRenderHTML ea hea ofArticles_not_render
    rw [hmap, articlesPage_ok "map.html" W w h, renderHTML_render_calls, hW1]
    simp [har]

/-- Witness of C8, the scenario of the specification: with the single article
`{id:1, title:"Exam Results", category:"news", image_url:"/images/a.jpg"}`
and no video link, `studentHandler` calls `renderHTML` once, with `first.html`
and the view model holding exactly that article and no video link, and
answers 200. -/
theorem student_map_render_articles_only_witness :
    (getArticlesFromDB (worldOf examDB)).2.1 = none ∧
    (studentHandler (worldOf examDB) [] (getRequest "/student")).2.trace.filter
        Event.isRenderHTML =
      [Event.renderHTML "first.html" "/srv/shahala/assets"
        { Articles := Slice.mk
            [{ ID := 1, Title := "Exam Results", Category := "news",
               ImageURL := "/images/a.jpg" }],
          VideoLinks := Slice.nil }] ∧
    (studentHandler (worldOf examDB) [] (getRequest "/student")).2.trace.filter
        Event.isGetVideoLinks = [] ∧
    status (studentHandler (worldOf examDB) [] (getRequest "/student")).1 = 200 :=
  ⟨by decide,
    ((student_map_render_articles_only (worldOf examDB) [] (getRequest "/student")).2.2
      (by decide)).2.1.1,
    (student_map_render_articles_only (worldOf examDB) [] (getRequest "/student")).1.1,
    by decide⟩

/-- C3 (as stated, refuted): in `brokenPageWorld` the template of `/` parses
and its execution fails after part of the page was written; `homeHandler`
discards the error, the response is the part written and its status is 200,
not 500. -/
theorem execute_failure_answers_200 :
    (failingTemplate.Execute (viewDataOf true brokenPageWorld)).2 =
      some "template: index.html:12:20: executing" ∧
    (homeHandler brokenPageWorld [] (getRequest "/")).1 = [Sent.Write "<html><body>"] ∧
    status (homeHandler brokenPageWorld [] (getRequest "/")).1 = 200 ∧
    status (homeHandler brokenPageWorld [] (getRequest "/")).1 ≠ StatusInternalServerError := by
  refine ⟨rfl, ?_, ?_, ?_⟩ <;> decide

/-- C3 (amended): for each page handler whose list operations succeed, if the
template file cannot be located or parsed the response is the reply
`http.Error(w, e, 500)` with status 500; if it parses, the value returned by
`tmpl.Execute` is discarded: the response is exactly what the execution wrote,
with status 200, whether or not the execution failed. -/
theorem render_failure_status (f : PageHandler) (W : World) (r : Request)
    (h : (getArticlesFromDB W).2.1 = none)
    (hv : f.withVideoLinks = true →
      (getVideoLinksFromDB (getArticlesFromDB W).2.2).2.1 = none) :
    (∀ e, W.ParseFiles (filepath_Join W.templatesDir f.filename) = Except.error e →
      (f.ServeHTTP W [] r).1 = [Sent.Error e 500] ∧ status (f.ServeHTTP W [] r).1 = 500) ∧
    (∀ tmpl, W.ParseFiles (filepath_Join W.templatesDir f.filename) = Except.ok tmpl →
      (f.ServeHTTP W [] r).1 =
        [Sent.Write (tmpl.Execute (viewDataOf f.withVideoLinks W)).1] ∧
      status (f.ServeHTTP W [] r).1 = 200) := by
  obtain ⟨ea, -, hW1⟩ := after_articles W
  obtain ⟨evs, -, hW2⟩ := after_both W
  by_cases hw : f.withVideoLinks = true
  · rw [ServeHTTP_eq, if_pos hw, articlesAndVideosPage_ok f.filename W [] h (hv hw), hW2]
    constructor
    · intro e hp
      simp [renderHTML, World.emit, log_Println, hp, http_Error, status,
        StatusInternalServerError]
    · intro tmpl hp
      simp [renderHTML, World.emit, hp, status, StatusOK, viewDataOf, hw]
  · rw [ServeHTTP_eq, if_neg hw, articlesPage_ok f.filename W [] h, hW1]
    constructor
    · intro e hp
      simp [renderHTML, World.emit, log_Println, hp, http_Error, status,
        StatusInternalServerError]
    · intro tmpl hp
      simp [renderHTML, World.emit, hp, status, StatusOK, viewDataOf, hw]

/-- Witness of C3 (amended): in `brokenPageWorld` the list operations of
`homeHandler` succeed, its template parses and fails in execution, and the
response is the part written, with status 200. -/
theorem render_failure_status_witness :
    (getArticlesFromDB brokenPageWorld).2.1 = none ∧
    (homeHandler brokenPageWorld [] (getRequest "/")).1 =
      [Sent.Write (failingTemplate.Execute (viewDataOf true brokenPageWorld)).1] ∧
    status (homeHandler brokenPageWorld [] (getRequest "/")).1 = 200 :=
  ⟨by decide,
    (render_failure_status PageHandler.homeHandler brokenPageWorld (getRequest "/")
      (by decide) (fun _ => by decide)).2 failingTemplate rfl⟩

/-- C9: whenever `template.ParseFiles` fails with `e` on
`filepath.Join(templatesDir, filename)`, `renderHTML` replies
`http.Error(w, e, 500)` and nothing else: status 500, no page output, no call
of `tmpl.Execute`. And the failure stays with its route: in the world where
`map.html` is missing `mapHandler` answers 500, while the responses of
`homeHandler`, `aboutHandler` and `studentHandler` are what they are with the
file present. -/
theorem missing_template_answers_500 (W : World) (w : ResponseWriter) (filename dir : String)
    (data : ViewData) (e : Error)
    (h : W.ParseFiles (filepath_Join dir filename) = Except.error e)
    (V : World) (e' : Error) (w' : ResponseWriter) (r : Request) :
    ((renderHTML W w filename dir data).1 = http_Error w e StatusInternalServerError ∧
      (renderHTML W [] filename dir data).1 = [Sent.Error e 500] ∧
      status (renderHTML W [] filename dir data).1 = 500 ∧
      pageOutput (renderHTML W [] filename dir data).1 = "" ∧
      (renderHTML W w filename dir data).2.trace.filter Event.isExecute =
        W.trace.filter Event.isExecute) ∧
    (status (mapHandler (V.removeFile (filepath_Join V.templatesDir "map.html") e') [] r).1
        = 500 ∧
      (homeHandler (V.removeFile (filepath_Join V.templatesDir "map.html") e') w' r).1 =
        (homeHandler V w' r).1 ∧
      (aboutHandler (V.removeFile (filepath_Join V.templatesDir "map.html") e') w' r).1 =
        (aboutHandler V w' r).1 ∧
      (studentHandler (V.removeFile (filepath_Join V.templatesDir "map.html") e') w' r).1 =
        (studentHandler V w' r).1) := by
  constructor
  · simp [renderHTML, World.emit, log_Println, h, http_Error, status, pageOutput,
      StatusInternalServerError, Event.isExecute]
  · have hne : ∀ name : String, name ≠ "map.html" →
        (V.removeFile (filepath_Join V.templatesDir "map.html") e').ParseFiles
          (filepath_Join V.templatesDir name) = V.ParseFiles (filepath_Join V.templatesDir name) := by
      intro name hname
      have : filepath_Join V.templatesDir name ≠ filepath_Join V.templatesDir "map.html" :=
        fun hj => hname (filepath_Join_injective _ _ _ hj)
      simp [World.removeFile, this]
    refine ⟨?_, ?_, ?_, ?_⟩
    · obtain ⟨ea, -, hc⟩ :=
        articlesPage_cases "map.html" (V.removeFile (filepath_Join V.templatesDir "map.html") e')
      have hm : ∀ U : World, mapHandler U [] r = articlesPage "map.html" U [] := fun _ => rfl
      rw [hm, hc _ [] rfl]
      cases (getArticlesFromDB
          (V.removeFile (filepath_Join V.templatesDir "map.html") e')).2.1 <;>
        simp [renderHTML, World.emit, log_Println, World.removeFile, http_Error, status,
          StatusInternalServerError]
    · obtain ⟨evs, hF⟩ := articlesAndVideosPage_frame "index.html" V
      have hm : ∀ U : World, homeHandler U w' r = articlesAndVideosPage "index.html" U w' :=
        fun _ => rfl
      rw [hm, hm, hF (V.removeFile (filepath_Join V.templatesDir "map.html") e') w' rfl rfl rfl
        (hne "index.html" (by decide))]
    · obtain ⟨evs, hF⟩ := articlesAndVideosPage_frame "article.html" V
      have hm : ∀ U : World, aboutHandler U w' r = articlesAndVideosPage "article.html" U w' :=
        fun _ => rfl
      rw [hm, hm, hF (V.removeFile (filepath_Join V.templatesDir "map.html") e') w' rfl rfl rfl
        (hne "article.html" (by decide))]
    · obtain ⟨evs, -, hF⟩ := articlesPage_frame "first.html" V
      have hm : ∀ U : World, studentHandler U w' r = articlesPage "first.html" U w' :=
        fun _ => rfl
      rw [hm, hm, hF (V.removeFile (filepath_Join V.templatesDir "map.html") e') w' rfl rfl
        (hne "first.html" (by decide))]

/-- Witness of C9: with `map.html` deleted, `renderHTML` on it and
`mapHandler` answer 500, and `studentHandler` answers as with the file
present. -/
theorem missing_template_answers_500_witness :
    noMapWorld.ParseFiles (filepath_Join "/srv/shahala/assets" "map.html") =
      Except.error "open /srv/shahala/assets/map.html: no such file or directory" ∧
    status (renderHTML noMapWorld [] "map.html" "/srv/shahala/assets"
      (viewDataOf false noMapWorld)).1 = 500 ∧
    status (mapHandler ((worldOf examDB).removeFile
      (filepath_Join (worldOf examDB).templatesDir "map.html")
      "open /srv/shahala/assets/map.html: no such file or directory") []
      (getRequest "/map")).1 = 500 ∧
    (studentHandler ((worldOf examDB).removeFile
      (filepath_Join (worldOf examDB).templatesDir "map.html")
      "open /srv/shahala/assets/map.html: no such file or directory") []
      (getRequest "/map")).1 = (studentHandler (worldOf examDB) [] (getRequest "/map")).1 :=
  ⟨rfl,
    (missing_template_answers_500 noMapWorld [] "map.html" "/srv/shahala/assets"
      (viewDataOf false noMapWorld)
      "open /srv/shahala/assets/map.html: no such file or directory" rfl
      (worldOf examDB) "open /srv/shahala/assets/map.html: no such file or directory" []
      (getRequest "/map")).1.2.2.1,
    (missing_template_answers_500 noMapWorld [] "map.html" "/srv/shahala/assets"
      (viewDataOf false noMapWorld)
      "open /srv/shahala/assets/map.html: no such file or directory" rfl
      (worldOf examDB) "open /srv/shahala/assets/map.html: no such file or directory" []
      (getRequest "/map")).2.1,
    (missing_template_answers_500 noMapWorld [] "map.html" "/srv/shahala/assets"
      (viewDataOf false noMapWorld)
      "open /srv/shahala/assets/map.html: no such file or directory" rfl
      (worldOf examDB) "open /srv/shahala/assets/map.html: no such file or directory" []
      (getRequest "/map")).2.2.2.2⟩

/-- C10: a page handler reads nothing from the request and leaves no state
behind. For any two requests the handler returns the same response (same
status, same calls on the writer) and the same world; the world it returns is
the one it was given with only the trace (log lines and call records)
extended, so the store, `templatesDir` and the template files are untouched;
and the response of any page handler run afterwards is the response it gives
when run first. -/
theorem handlers_ignore_request (f : PageHandler) (W : World) (w : ResponseWriter)
    (r1 r2 : Request) :
    f.ServeHTTP W w r1 = f.ServeHTTP W w r2 ∧
    (status (f.ServeHTTP W w r1).1 = status (f.ServeHTTP W w r2).1 ∧
      (f.ServeHTTP W w r1).1 = (f.ServeHTTP W w r2).1) ∧
    (∃ evs : List Event, (f.ServeHTTP W w r1).2 = { W with trace := W.trace ++ evs }) ∧
    (∀ (g : PageHandler) (w' : ResponseWriter) (r' : Request),
      (g.ServeHTTP (f.ServeHTTP W w r1).2 w' r').1 = (g.ServeHTTP W w' r').1) := by
  have h1 : f.ServeHTTP W w r1 = f.ServeHTTP W w r2 := by cases f <;> rfl
  obtain ⟨evs, hF⟩ := ServeHTTP_frame f W
  have h3 : (f.ServeHTTP W w r1).2 = { W with trace := W.trace ++ evs } := by
    rw [hF W w r1 rfl rfl rfl rfl]
  refine ⟨h1, ⟨by rw [h1], by rw [h1]⟩, ⟨evs, h3⟩, fun g w' r' => ?_⟩
  obtain ⟨evs', hG⟩ := ServeHTTP_frame g W
  rw [h3, hG { W with trace := W.trace ++ evs } w' r' rfl rfl rfl rfl]

/-- Instance of C10: two different requests for `/` on the store with one
article and one video link get the same response. -/
theorem handlers_ignore_request_witness :
    getRequest "/" ≠ busyRequest "/" ∧
    (homeHandler (worldOf fullDB) [] (getRequest "/")).1 =
      (homeHandler (worldOf fullDB) [] (busyRequest "/")).1 ∧
    status (homeHandler (worldOf fullDB) [] (busyRequest "/")).1 = 200 :=
  ⟨by decide,
    (handlers_ignore_request PageHandler.homeHandler (worldOf fullDB) []
      (getRequest "/") (busyRequest "/")).2.1.2,
    by decide⟩

/-! ## Theorems on the route dispatcher -/

theorem main_mux_m (baseDir : String) :
    (main_mux baseDir).m.map (fun e => (e.pattern, e.h)) =
      [("/", Handler.page PageHandler.homeHandler),
       ("/about", Handler.page PageHandler.aboutHandler),
       ("/student", Handler.page PageHandler.studentHandler),
       ("/map", Handler.page PageHandler.mapHandler),
       ("/css/", Handler.FileServer "/css/"
          (filepath_Join (filepath_Join baseDir "shahala/assets") "css")),
       ("/fonts/", Handler.FileServer "/fonts/"
          (filepath_Join (filepath_Join baseDir "shahala/assets") "fonts")),
       ("/images/", Handler.FileServer "/images/"
          (filepath_Join (filepath_Join baseDir "shahala/assets") "images")),
       ("/js/", Handler.FileServer "/js/"
          (filepath_Join (filepath_Join baseDir "shahala/assets") "js"))] := rfl

theorem main_mux_es (baseDir : String) :
    (main_mux baseDir).es.map (fun e => (e.pattern, e.h)) =
      [("/images/", Handler.FileServer "/images/"
          (filepath_Join (filepath_Join baseDir "shahala/assets") "images")),
       ("/fonts/", Handler.FileServer "/fonts/"
          (filepath_Join (filepath_Join baseDir "shahala/assets") "fonts")),
       ("/css/", Handler.FileServer "/css/"
          (filepath_Join (filepath_Join baseDir "shahala/assets") "css")),
       ("/js/", Handler.FileServer "/js/"
          (filepath_Join (filepath_Join baseDir "shahala/assets") "js")),
       ("/", Handler.page PageHandler.homeHandler)] := rfl

theorem append_slash_cancel (p q : String) (h : q ++ "/" = p ++ "/") : q = p := by
  have h1 := congrArg String.data h
  simp only [String.data_append] at h1
  exact String.ext (List.append_cancel_right h1)

theorem append_slash_last (p q : String) (h : q = p ++ "/") : q.data.getLast? = some '/' := by
  subst h
  simp [String.data_append]

/-- C4 (as stated, refuted): the path `/foo` is canonical, is none of the four
routes and is under none of the four asset directories, yet the mux of `main`
selects `homeHandler` for it, because the pattern `/` matches every path; the
client gets the rendered index page with status 200, not the not-found
response. -/
theorem unmatched_path_reaches_homeHandler :
    ("/foo" ≠ "/" ∧ "/foo" ≠ "/about" ∧ "/foo" ≠ "/student" ∧ "/foo" ≠ "/map") ∧
    (strings_HasPrefix "/foo" "/css/" = false ∧ strings_HasPrefix "/foo" "/fonts/" = false ∧
      strings_HasPrefix "/foo" "/images/" = false ∧ strings_HasPrefix "/foo" "/js/" = false) ∧
    dispatch "/srv" "/foo" = Selected.handler (Handler.page PageHandler.homeHandler) ∧
    dispatch "/srv" "/foo" ≠ Selected.notFound ∧
    (PageHandler.homeHandler.ServeHTTP (worldOf fullDB) [] (getRequest "/foo")).1 =
      [Sent.Write "<html>/srv/shahala/assets/index.html</html>"] ∧
    status (PageHandler.homeHandler.ServeHTTP (worldOf fullDB) [] (getRequest "/foo")).1 = 200 := by
  refine ⟨by decide, by decide, by decide, by decide, by decide, by decide⟩

theorem dispatch_home (baseDir path : String)
    (hcanon : canonicalPath path = true)
    (hroot : strings_HasPrefix path "/" = true)
    (habout : path ≠ "/about") (hstudent : path ≠ "/student") (hmap : path ≠ "/map")
    (hdirs : path ≠ "/css" ∧ path ≠ "/fonts" ∧ path ≠ "/images" ∧ path ≠ "/js")
    (hcss : strings_HasPrefix path "/css/" = false)
    (hfonts : strings_HasPrefix path "/fonts/" = false)
    (himages : strings_HasPrefix path "/images/" = false)
    (hjs : strings_HasPrefix path "/js/" = false) :
    dispatch baseDir path = Selected.handler (Handler.page PageHandler.homeHandler) := by
  by_cases h0 : path = "/"
  · subst h0
    rfl
  · have e0 : ¬ "/" = path := fun h => h0 h.symm
    have e1 : ¬ "/about" = path := fun h => habout h.symm
    have e2 : ¬ "/student" = path := fun h => hstudent h.symm
    have e3 : ¬ "/map" = path := fun h => hmap h.symm
    have e4 : ¬ "/css/" = path := by
      intro h; subst h; exact absurd hcss (by decide)
    have e5 : ¬ "/fonts/" = path := by
      intro h; subst h; exact absurd hfonts (by decide)
    have e6 : ¬ "/images/" = path := by
      intro h; subst h; exact absurd himages (by decide)
    have e7 : ¬ "/js/" = path := by
      intro h; subst h; exact absurd hjs (by decide)
    have s0 : ¬ "/" = path ++ "/" := by
      intro h
      have := append_slash_cancel path "" h
      subst this
      exact absurd hroot (by decide)
    have s1 : ¬ "/about" = path ++ "/" := fun h =>
      absurd (append_slash_last path "/about" h) (by decide)
    have s2 : ¬ "/student" = path ++ "/" := fun h =>
      absurd (append_slash_last path "/student" h) (by decide)
    have s3 : ¬ "/map" = path ++ "/" := fun h =>
      absurd (append_slash_last path "/map" h) (by decide)
    have s4 : ¬ "/css/" = path ++ "/" := fun h =>
      hdirs.1 (append_slash_cancel path "/css" h).symm
    have s5 : ¬ "/fonts/" = path ++ "/" := fun h =>
      hdirs.2.1 (append_slash_cancel path "/fonts" h).symm
    have s6 : ¬ "/images/" = path ++ "/" := fun h =>
      hdirs.2.2.1 (append_slash_cancel path "/images" h).symm
    have s7 : ¬ "/js/" = path ++ "/" := fun h =>
      hdirs.2.2.2 (append_slash_cancel path "/js" h).symm
    simp [dispatch, main_mux, NewServeMux, ServeMux.Handle, ServeMux.Handler,
      ServeMux.shouldRedirect, ServeMux.matchPath, appendSorted,
      List.find?, e0, e1, e2, e3, e4, e5, e6, e7, s0, s1, s2, s3, s4, s5, s6, s7,
      hcanon, hroot, hcss, hfonts, himages, hjs]

theorem homeHandler_rendered (W : World) (r : Request) (tmpl : Template)
    (h : (getArticlesFromDB W).2.1 = none)
    (hv : (getVideoLinksFromDB (getArticlesFromDB W).2.2).2.1 = none)
    (hp : W.ParseFiles (filepath_Join W.templatesDir "index.html") = Except.ok tmpl) :
    (homeHandler W [] r).1 = [Sent.Write (tmpl.Execute (viewDataOf true W)).1] ∧
      status (homeHandler W [] r).1 = 200 := by
  obtain ⟨evs, -, hW2⟩ := after_both W
  have hhome : homeHandler W [] r = articlesAndVideosPage "index.html" W [] := rfl
  rw [hhome, articlesAndVideosPage_ok "index.html" W [] h hv, hW2]
  simp [renderHTML, World.emit, hp, status, StatusOK, viewDataOf]

theorem homeHandler_failed (W : World) (r : Request)
    (h : ¬ ((getArticlesFromDB W).2.1 = none ∧
      (getVideoLinksFromDB (getArticlesFromDB W).2.2).2.1 = none ∧
      ∃ tmpl, W.ParseFiles (filepath_Join W.templatesDir "index.html") = Except.ok tmpl)) :
    status (homeHandler W [] r).1 = 500 := by
  have hhome : homeHandler W [] r = articlesAndVideosPage "index.html" W [] := rfl
  rw [(videoLinks_after_articles W).2] at h
  obtain ⟨ea, ev, -, -, hc⟩ := articlesAndVideosPage_cases "index.html" W
  rw [hhome, hc W [] rfl rfl]
  cases ha : (getArticlesFromDB W).2.1 with
  | some e => simp [http_Error, status, StatusInternalServerError]
  | none =>
    cases hb : (getVideoLinksFromDB W).2.1 with
    | some e => simp [http_Error, status, StatusInternalServerError]
    | none =>
      cases hp : W.ParseFiles (filepath_Join W.templatesDir "index.html") with
      | error e =>
        simp [renderHTML, World.emit, log_Println, hp, http_Error, status,
          StatusInternalServerError]
      | ok tmpl => exact absurd ⟨ha, hb, tmpl, hp⟩ h

/-- C4 (amended): the mux of `main` selects the handler of each of the four
routes for its exact path, and the pattern `/` of `homeHandler` matches every
other path outside the asset directories. For every request whose path is
canonical, is none of `/about`, `/student`, `/map`, is not an asset directory
(`/css`, `/fonts`, `/images`, `/js`, which are redirected) and is not under
`/css/`, `/fonts/`, `/images/` or `/js/`, the mux selects `homeHandler`, never
the not-found handler, and the client gets the response of `homeHandler`: the
rendered index page with status 200 when both list operations succeed and
`index.html` parses, and status 500 in every other case. -/
theorem dispatch_falls_back_to_homeHandler (baseDir : String) (W : World)
    (w : ResponseWriter) (r : Request)
    (hcanon : canonicalPath r.Path = true)
    (hroot : strings_HasPrefix r.Path "/" = true)
    (habout : r.Path ≠ "/about") (hstudent : r.Path ≠ "/student") (hmap : r.Path ≠ "/map")
    (hdirs : r.Path ≠ "/css" ∧ r.Path ≠ "/fonts" ∧ r.Path ≠ "/images" ∧ r.Path ≠ "/js")
    (hcss : strings_HasPrefix r.Path "/css/" = false)
    (hfonts : strings_HasPrefix r.Path "/fonts/" = false)
    (himages : strings_HasPrefix r.Path "/images/" = false)
    (hjs : strings_HasPrefix r.Path "/js/" = false) :
    (dispatch baseDir r.Path = Selected.handler (Handler.page PageHandler.homeHandler) ∧
      dispatch baseDir r.Path ≠ Selected.notFound) ∧
    (serve baseDir W w r = some (homeHandler W w r) ∧
      serve baseDir W [] r = some (homeHandler W [] r)) ∧
    (∀ tmpl : Template, (getArticlesFromDB W).2.1 = none →
      (getVideoLinksFromDB (getArticlesFromDB W).2.2).2.1 = none →
      W.ParseFiles (filepath_Join W.templatesDir "index.html") = Except.ok tmpl →
      (homeHandler W [] r).1 = [Sent.Write (tmpl.Execute (viewDataOf true W)).1] ∧
        status (homeHandler W [] r).1 = 200) ∧
    (¬ ((getArticlesFromDB W).2.1 = none ∧
        (getVideoLinksFromDB (getArticlesFromDB W).2.2).2.1 = none ∧
        ∃ tmpl, W.ParseFiles (filepath_Join W.templatesDir "index.html") = Except.ok tmpl) →
      status (homeHandler W [] r).1 = 500) ∧
    (dispatch baseDir "/" = Selected.handler (Handler.page PageHandler.homeHandler) ∧
      dispatch baseDir "/about" = Selected.handler (Handler.page PageHandler.aboutHandler) ∧
      dispatch baseDir "/student" = Selected.handler (Handler.page PageHandler.studentHandler) ∧
      dispatch baseDir "/map" = Selected.handler (Handler.page PageHandler.mapHandler)) := by
  have hd := dispatch_home baseDir r.Path hcanon hroot habout hstudent hmap hdirs hcss hfonts
    himages hjs
  refine ⟨⟨hd, ?_⟩, ⟨?_, ?_⟩, fun tmpl h hv hp => homeHandler_rendered W r tmpl h hv hp,
    fun h => homeHandler_failed W r h, rfl, rfl, rfl, rfl⟩
  · rw [hd]
    exact fun h => Selected.noConfusion h
  · simp only [serve, hd]
    rfl
  · simp only [serve, hd]
    rfl

/-- Witness of C4 (amended) on the path `/foo`: the mux selects `homeHandler`;
with the store holding one article and one video link the client gets the
rendered index page with status 200, and with the store down it gets 500. -/
theorem dispatch_falls_back_to_homeHandler_witness :
    dispatch "/srv" (getRequest "/foo").Path =
      Selected.handler (Handler.page PageHandler.homeHandler) ∧
    serve "/srv" (worldOf fullDB) [] (getRequest "/foo") =
      some (homeHandler (worldOf fullDB) [] (getRequest "/foo")) ∧
    ((homeHandler (worldOf fullDB) [] (getRequest "/foo")).1 =
        [Sent.Write "<html>/srv/shahala/assets/index.html</html>"] ∧
      status (homeHandler (worldOf fullDB) [] (getRequest "/foo")).1 = 200) ∧
    status (homeHandler (worldOf downDB) [] (getRequest "/foo")).1 = 500 :=
  ⟨(dispatch_falls_back_to_homeHandler "/srv" (worldOf fullDB) [] (getRequest "/foo")
      (by decide) (by decide) (by decide) (by decide) (by decide) (by decide) (by decide)
      (by decide) (by decide) (by decide)).1.1,
    (dispatch_falls_back_to_homeHandler "/srv" (worldOf fullDB) [] (getRequest "/foo")
      (by decide) (by decide) (by decide) (by decide) (by decide) (by decide) (by decide)
      (by decide) (by decide) (by decide)).2.1.2,
    (dispatch_falls_back_to_homeHandler "/srv" (worldOf fullDB) [] (getRequest "/foo")
      (by decide) (by decide) (by decide) (by decide) (by decide) (by decide) (by decide)
      (by decide) (by decide) (by decide)).2.2.1
      (pageTemplate "<html>/srv/shahala/assets/index.html</html>") (by decide) (by decide) rfl,
    (dispatch_falls_back_to_homeHandler "/srv" (worldOf downDB) [] (getRequest "/foo")
      (by decide) (by decide) (by decide) (by decide) (by decide) (by decide) (by decide)
      (by decide) (by decide) (by decide)).2.2.2.1
      (fun h => absurd h.1 (by decide))⟩

end NewsSite
